import Mathlib

/-!
# Verification of the `ketch-core` renderer (`src/ketch-core/src/renderer.rs`)

A shallow embedding of the renderer of the `smml` (ketch) engine.  Pure
logic (device ranking, command recording, state updates of the `Renderer`
struct) is translated directly from the Rust source; the effects of the
external Vulkan library (vulkano) — results of instance/device/swapchain
creation, image acquisition, command-buffer building, submission and flush
— are supplied as explicit environment values, one per external call, so
that every control-flow path of the source is represented.  Rust `Result`
values become `Except`; a Rust `panic!`/`expect` becomes the `panic`
constructor of the `Outcome` type, kept distinct from error returns.
-/

/-- The five physical-device types of `vulkano::instance::PhysicalDeviceType`. -/
inductive PhysicalDeviceType
  | DiscreteGpu
  | VirtualGpu
  | IntegratedGpu
  | Cpu
  | Other
  deriving DecidableEq, Fintype

/-- A physical device as seen by `rank_devices`: an identity (the position
handle returned by enumeration) together with its type (`device.ty()`). -/
structure PhysicalDevice where
  id : Nat
  ty : PhysicalDeviceType
  deriving DecidableEq

/-- The score `rank_devices` assigns to each device type
(renderer.rs lines 322-328). -/
def deviceScore : PhysicalDeviceType → Nat
  | .DiscreteGpu => 4
  | .VirtualGpu => 3
  | .IntegratedGpu => 2
  | .Cpu => 1
  | .Other => 0

/-- Modelled from the spec: `renderer_error.rs` is not among the provided
source files; the variants are inferred from their uses in `renderer.rs`
(`RendererCreationError::NoPhysicalDeviceError` and the `?`-conversions from
each creation error).  Every wrapped cause is abstracted to a numeric code. -/
inductive RendererCreationError
  | NoPhysicalDeviceError
  | InstanceCreationError (code : Nat)
  | SurfaceCreationError (code : Nat)
  | DeviceCreationError (code : Nat)
  | CapabilitiesError (code : Nat)
  | SwapchainCreationError (code : Nat)
  | RenderPassCreationError (code : Nat)
  | PipelineCreationError (code : Nat)
  | FramebufferCreationError (code : Nat)
  deriving DecidableEq

/-- Rust `Iterator::max_by` on the `(device, score)` pairs: the fold keeps
the earlier element only when the later one compares strictly smaller, so on
ties the LATER element wins (`core::cmp::max_by` returns its second argument
unless the second is `Less` than the first). -/
def maxByScore (l : List (PhysicalDevice × Nat)) : Option (PhysicalDevice × Nat) :=
  l.foldl
    (fun acc x =>
      match acc with
      | none => some x
      | some a => if x.2 < a.2 then some a else some x)
    none

/-- `rank_devices` (renderer.rs lines 320-330): map every enumerated device
to a `(device, score)` pair, take the maximum by score, drop the score, and
turn an empty enumeration into `NoPhysicalDeviceError`. -/
def rank_devices (devices : List PhysicalDevice) :
    Except RendererCreationError PhysicalDevice :=
  match maxByScore (devices.map fun d => (d, deviceScore d.ty)) with
  | some (d, _) => .ok d
  | none => .error RendererCreationError.NoPhysicalDeviceError

/-- One step of the `max_by` fold, exposed for the induction below. -/
def maxByStep (acc : Option (PhysicalDevice × Nat)) (x : PhysicalDevice × Nat) :
    Option (PhysicalDevice × Nat) :=
  match acc with
  | none => some x
  | some a => if x.2 < a.2 then some a else some x

theorem maxByScore_eq_foldl (l : List (PhysicalDevice × Nat)) :
    maxByScore l = l.foldl maxByStep none := rfl

/-- Full characterisation of the fold: on a non-empty enumeration it returns
the LAST device attaining the maximal score — everything before it scores no
higher, everything after it scores strictly lower. -/
theorem maxByScore_spec (l : List PhysicalDevice) (hne : l ≠ []) :
    ∃ pre d post,
      l = pre ++ d :: post ∧
      maxByScore (l.map fun d => (d, deviceScore d.ty)) = some (d, deviceScore d.ty) ∧
      (∀ p ∈ pre, deviceScore p.ty ≤ deviceScore d.ty) ∧
      (∀ p ∈ post, deviceScore p.ty < deviceScore d.ty) := by
  induction l using List.reverseRecOn with
  | nil => cases hne rfl
  | append_singleton l x ih =>
    rw [maxByScore_eq_foldl]
    rcases eq_or_ne l [] with hl | hl
    · subst hl
      exact ⟨[], x, [], rfl, rfl, by simp, by simp⟩
    · obtain ⟨pre, d, post, hsplit, hmax, hpre, hpost⟩ := ih hl
      rw [maxByScore_eq_foldl] at hmax
      have hfold : (l ++ [x]).map (fun d => (d, deviceScore d.ty)) =
          (l.map fun d => (d, deviceScore d.ty)) ++ [(x, deviceScore x.ty)] := by
        simp
      rw [hfold, List.foldl_append, hmax]
      by_cases hx : deviceScore x.ty < deviceScore d.ty
      · refine ⟨pre, d, post ++ [x], by simp [hsplit], ?_, hpre, ?_⟩
        · simp [maxByStep, hx]
        · intro p hp
          rcases List.mem_append.mp hp with h | h
          · exact hpost p h
          · simp only [List.mem_singleton] at h
            subst h; exact hx
      · refine ⟨l, x, [], rfl, ?_, ?_, by simp⟩
        · simp [maxByStep, hx]
        · intro p hp
          have hle : deviceScore d.ty ≤ deviceScore x.ty := Nat.le_of_not_lt hx
          have : deviceScore p.ty ≤ deviceScore d.ty := by
            rw [hsplit] at hp
            rcases List.mem_append.mp hp with h | h
            · exact hpre p h
            · rcases List.mem_cons.mp h with h | h
              · subst h; exact Nat.le_refl _
              · exact Nat.le_of_lt (hpost p h)
          exact Nat.le_trans this hle

/-- Selection returns a member of the enumeration with maximal score. -/
theorem rank_devices_max (l : List PhysicalDevice) (hne : l ≠ []) :
    ∃ d, rank_devices l = .ok d ∧ d ∈ l ∧
      ∀ p ∈ l, deviceScore p.ty ≤ deviceScore d.ty := by
  obtain ⟨pre, d, post, hsplit, hmax, hpre, hpost⟩ := maxByScore_spec l hne
  refine ⟨d, ?_, ?_, ?_⟩
  · simp [rank_devices, hmax]
  · rw [hsplit]; exact List.mem_append.mpr (Or.inr (List.mem_cons_self d post))
  · intro p hp
    rw [hsplit] at hp
    rcases List.mem_append.mp hp with h | h
    · exact hpre p h
    · rcases List.mem_cons.mp h with h | h
      · subst h; exact Nat.le_refl _
      · exact Nat.le_of_lt (hpost p h)

/-- C1: device selection returns a device whose score under
Discrete GPU=4, Virtual GPU=3, Integrated GPU=2, CPU=1, Other=0 is maximal;
an enumeration holding one adapter of each type yields the Discrete GPU; the
empty enumeration yields `NoPhysicalDeviceError` (an error value, not a
panic — `rank_devices` is total and returns `Except`). -/
theorem C1_device_ranking :
    (∀ l : List PhysicalDevice, l ≠ [] →
      ∃ d, rank_devices l = .ok d ∧ d ∈ l ∧
        ∀ p ∈ l, deviceScore p.ty ≤ deviceScore d.ty) ∧
    (∀ l : List PhysicalDevice,
      (∀ t, (l.filter fun d => d.ty = t).length = 1) →
      ∃ d, rank_devices l = .ok d ∧ d.ty = PhysicalDeviceType.DiscreteGpu) ∧
    rank_devices [] = .error RendererCreationError.NoPhysicalDeviceError := by
  refine ⟨rank_devices_max, ?_, rfl⟩
  intro l hone
  have hdisc : ∃ g ∈ l, g.ty = PhysicalDeviceType.DiscreteGpu := by
    have h1 := hone PhysicalDeviceType.DiscreteGpu
    rcases hl : l.filter fun d => d.ty = PhysicalDeviceType.DiscreteGpu with _ | ⟨g, rest⟩
    · rw [hl] at h1; simp at h1
    · have hg : g ∈ l.filter fun d => d.ty = PhysicalDeviceType.DiscreteGpu := by
        rw [hl]; exact List.mem_cons_self g rest
      have := List.mem_filter.mp hg
      exact ⟨g, this.1, by simpa using this.2⟩
  obtain ⟨g, hgmem, hgty⟩ := hdisc
  have hne : l ≠ [] := by
    intro h; subst h; simp at hgmem
  obtain ⟨d, hok, hdmem, hdmax⟩ := rank_devices_max l hne
  refine ⟨d, hok, ?_⟩
  have h4 : 4 ≤ deviceScore d.ty := by
    have := hdmax g hgmem
    rw [hgty] at this
    exact this
  have hscore : ∀ t : PhysicalDeviceType,
      4 ≤ deviceScore t → t = PhysicalDeviceType.DiscreteGpu := by
    intro t ht
    cases t <;> first | rfl | exact absurd ht (by decide)
  exact hscore d.ty h4

/-- C1 witness: the general theorem applied to the concrete enumeration
holding one adapter of each type, and to the empty enumeration. -/
theorem C1_device_ranking_witness :
    (∃ d, rank_devices
        [⟨0, .Other⟩, ⟨1, .Cpu⟩, ⟨2, .IntegratedGpu⟩, ⟨3, .VirtualGpu⟩, ⟨4, .DiscreteGpu⟩]
        = .ok d ∧ d.ty = PhysicalDeviceType.DiscreteGpu) ∧
    rank_devices [] = .error RendererCreationError.NoPhysicalDeviceError :=
  ⟨C1_device_ranking.2.1
      [⟨0, .Other⟩, ⟨1, .Cpu⟩, ⟨2, .IntegratedGpu⟩, ⟨3, .VirtualGpu⟩, ⟨4, .DiscreteGpu⟩]
      (by decide),
   C1_device_ranking.2.2⟩

/-- C6 counterexample: two `Other`-type adapters tie at the maximal score;
the Rust `max_by` fold returns the LAST of them (id 1), not the first-
enumerated one (id 0), so ties are NOT broken in favour of enumeration
order's first element. -/
theorem C6_counterexample :
    rank_devices [⟨0, .Other⟩, ⟨1, .Other⟩] = .ok ⟨1, .Other⟩ ∧
    deviceScore PhysicalDeviceType.Other = deviceScore PhysicalDeviceType.Other ∧
    ([⟨0, .Other⟩, ⟨1, .Other⟩] : List PhysicalDevice).head? = some ⟨0, .Other⟩ ∧
    (⟨1, .Other⟩ : PhysicalDevice) ≠ ⟨0, .Other⟩ := by
  refine ⟨rfl, rfl, rfl, by decide⟩

/-- C6 amended: among adapters sharing the maximal score, selection returns
the one appearing LAST in enumeration order: the result `d` splits the
enumeration as `pre ++ d :: post` with everything in `pre` scoring no higher
and everything in `post` scoring strictly lower. -/
theorem C6_tie_breaking (l : List PhysicalDevice) (hne : l ≠ []) :
    ∃ pre d post,
      l = pre ++ d :: post ∧
      rank_devices l = .ok d ∧
      (∀ p ∈ pre, deviceScore p.ty ≤ deviceScore d.ty) ∧
      (∀ p ∈ post, deviceScore p.ty < deviceScore d.ty) := by
  obtain ⟨pre, d, post, hsplit, hmax, hpre, hpost⟩ := maxByScore_spec l hne
  exact ⟨pre, d, post, hsplit, by simp [rank_devices, hmax], hpre, hpost⟩

/-- C6 amended witness: on the two-way tie the split is
`[⟨0,Other⟩] ++ ⟨1,Other⟩ :: []` and the last tied adapter is selected. -/
theorem C6_tie_breaking_witness :
    ∃ pre d post,
      ([⟨0, .Other⟩, ⟨1, .Other⟩] : List PhysicalDevice) = pre ++ d :: post ∧
      rank_devices [⟨0, .Other⟩, ⟨1, .Other⟩] = .ok d ∧
      (∀ p ∈ pre, deviceScore p.ty ≤ deviceScore d.ty) ∧
      (∀ p ∈ post, deviceScore p.ty < deviceScore d.ty) :=
  C6_tie_breaking [⟨0, .Other⟩, ⟨1, .Other⟩] (by decide)

/-! ## Data model of the frame loop

The scene-side types (`Texture`, `Mesh`, `Object`, `Camera`, `Scene`,
`AssetManager`) live in ketch-core's `resource` module, which is not among
the provided source files; they are modelled from the spec (§6: the asset
manager exposes an optional active scene with a camera, light data and an
ordered object sequence, each object holding a model matrix, an optional
mesh reference and the `light_source`/`uniform_scale` flags).  Matrices,
light data and GPU buffers are abstracted to numeric identities: the claims
only observe which values are bound where. -/

/-- A texture: an image buffer plus a sampler, abstracted to identities. -/
structure Texture where
  image_buffer : Nat
  sampler : Nat
  deriving DecidableEq

/-- Modelled from the spec: the `Mesh` type is missing from the provided
sources.  The integration tests create meshes without a texture and attach
one later via `set_texture`, while `renderer.rs` calls a total `texture()`
accessor and binds its result unconditionally — so the accessor must fall
back to a default texture when none was set. -/
structure Mesh where
  texture : Option Texture
  vertex_buffer : Nat
  index_buffer : Nat
  deriving DecidableEq

/-- The engine-provided default texture returned by `Mesh::texture()` when
no texture was attached (modelled from the spec, see `Mesh`). -/
def defaultTexture : Texture := ⟨0, 0⟩

/-- The total `texture()` accessor `renderer.rs` line 209 calls. -/
def Mesh.textureHandle (m : Mesh) : Texture :=
  m.texture.getD defaultTexture

/-- Modelled from the spec: a scene object with a model matrix (abstract),
an optional mesh and the two push-constant source flags. -/
structure Object where
  model_matrix : Nat
  mesh : Option Mesh
  light_source : Bool
  uniform_scale : Bool
  deriving DecidableEq

/-- Window / image dimensions in pixels. -/
structure Dim where
  width : Nat
  height : Nat
  deriving DecidableEq

/-- Modelled from the spec: an abstract camera identity; its uniform data
depends on the camera and the window dimensions. -/
structure Camera where
  id : Nat
  deriving DecidableEq

/-- The per-frame transformation uniform block: camera view/projection data
(abstracted as the camera identity plus the window dimensions fed to
`as_uniform_data`) and the per-object model matrix. -/
structure TransUniform where
  cameraId : Nat
  width : Nat
  height : Nat
  model : Nat
  deriving DecidableEq

/-- `scene.camera().as_uniform_data(w, h)` (renderer.rs line 187): the
camera block for this frame; the model slot is then overwritten per object. -/
def Camera.as_uniform_data (c : Camera) (w h : Nat) : TransUniform :=
  ⟨c.id, w, h, 0⟩

/-- Modelled from the spec: the active scene — camera, light data and an
ordered object list. -/
structure Scene where
  camera : Camera
  light_data : Nat
  objects : List Object
  deriving DecidableEq

/-- Modelled from the spec: the asset manager as the renderer consumes it —
an optional active scene. -/
structure AssetManager where
  active_scene : Option Scene
  deriving DecidableEq

/-- A GPU-bindable uniform subbuffer, tagged by the pool it came from and
carrying the data of the latest update call (spec §6: the uniform helper is
"a producer of GPU-bindable memory regions keyed by the latest update"). -/
inductive UniformPayload
  | transformation (d : TransUniform)
  | light (d : Nat)
  deriving DecidableEq

/-- The uniform-buffer helper `UniformManager` as the renderer uses it:
it holds the most recently written transformation and light blocks. -/
structure UniformManager where
  transformation_data : TransUniform
  light_data : Nat
  deriving DecidableEq

def UniformManager.update_transformation_data
    (um : UniformManager) (d : TransUniform) : UniformManager :=
  ⟨d, um.light_data⟩

def UniformManager.update_light_data (um : UniformManager) (d : Nat) :
    UniformManager :=
  ⟨um.transformation_data, d⟩

/-- `get_transformation_subbuffer_data`: a subbuffer keyed by the latest
transformation update.  (The underlying allocation error is not modelled:
recording into the embedded command list is total.) -/
def UniformManager.get_transformation_subbuffer_data (um : UniformManager) :
    UniformPayload :=
  .transformation um.transformation_data

/-- `get_light_subbuffer_data`: a subbuffer keyed by the latest light
update. -/
def UniformManager.get_light_subbuffer_data (um : UniformManager) :
    UniformPayload :=
  .light um.light_data

/-- One binding of a `PersistentDescriptorSet`, in `add_*` call order. -/
inductive DescriptorBinding
  | buffer (p : UniformPayload)
  | sampledImage (image_buffer : Nat) (sampler : Nat)
  deriving DecidableEq

/-- The push constants of the fragment shader (renderer.rs lines 201-204);
the Rust `bool as u32` casts. -/
structure PushConstants where
  light_source : Nat
  uniform_scale : Nat
  deriving DecidableEq

def boolToU32 (b : Bool) : Nat := if b then 1 else 0

/-- One recorded command of an `AutoCommandBufferBuilder`, restricted to
what the renderer records.  `beginRenderPass` names the bound framebuffer by
(generation, image index) and carries the clear values (colour as an RGBA
rational vector, depth as a rational). -/
inductive Command
  | beginRenderPass (framebufferGen : Nat) (imageIndex : Nat)
      (clearColor : List ℚ) (clearDepth : ℚ)
  | drawIndexed (descriptor_set : List DescriptorBinding)
      (push_constants : PushConstants) (vertex_buffer : Nat) (index_buffer : Nat)
  | endRenderPass
  deriving DecidableEq

/-- Whether a command is a draw call. -/
def Command.isDraw : Command → Bool
  | .drawIndexed _ _ _ _ => true
  | _ => false

/-- The chained GPU future built by `execute_command_buffer`:
`previous.join(acquire).then_execute(cb).then_swapchain_present(image)` —
`now` is `sync::now(device)`, the fresh timeline used when no previous
frame is tracked. -/
inductive GpuFuture
  | now
  | frame (previous : GpuFuture) (acquired_image : Nat) (image_num : Nat)
      (commands : List Command)
  deriving DecidableEq

/-- `vulkano::swapchain::AcquireError`; only `OutOfDate` is distinguished
by the renderer, every other variant is abstracted to a code. -/
inductive AcquireError
  | OutOfDate
  | otherError (code : Nat)
  deriving DecidableEq

/-- `vulkano::sync::FlushError`; only `OutOfDate` is distinguished. -/
inductive FlushError
  | OutOfDate
  | otherError (code : Nat)
  deriving DecidableEq

/-- Modelled from the spec: `renderer_error.rs` is not among the provided
sources; `RenderError` wraps each failure the `?` operators of
`render_scene`/`execute_command_buffer`/`recreate_swapchain` can propagate. -/
inductive RenderError
  | AcquireError (e : AcquireError)
  | FlushError (e : FlushError)
  | SwapchainCreationError (code : Nat)
  | PipelineCreationError (code : Nat)
  | FramebufferCreationError (code : Nat)
  | CommandBufferError (code : Nat)
  | ExecutionError (code : Nat)
  deriving DecidableEq

/-- Result of running a piece of Rust code: a value, a returned error, or a
`panic!`/`expect` abort (kept distinct from error returns). -/
inductive Outcome (ε α : Type)
  | ok (a : α)
  | err (e : ε)
  | panicked (msg : String)
  deriving DecidableEq

/-- The observable state of the `Renderer` struct: the swapchain /
pipeline / framebuffer resources are represented by their dimensions plus a
generation counter bumped on every rebuild, alongside the two mutable
fields `recreate_swapchain` and `previous_frame` and the uniform manager. -/
structure RendererState where
  swapchainDims : Dim
  swapchainGen : Nat
  pipelineViewport : Dim
  pipelineGen : Nat
  framebufferGen : Nat
  recreate_swapchain : Bool
  previous_frame : Option GpuFuture
  uniform_manager : UniformManager
  deriving DecidableEq

/-- Environment of one `render_scene` call: the window size reported by
`get_inner_size` (`none` = window closed, which the source turns into a
panic), and the outcome of each fallible vulkano call on the
recreate-then-acquire path. -/
structure FrameEnv where
  window : Option Dim
  swapchainRecreate : Except Nat Unit
  pipelineCreate : Except Nat Unit
  depthBufferOk : Bool
  framebufferBuild : Except Nat Unit
  acquire : Except AcquireError Nat

/-- `get_window_dimensions` (renderer.rs lines 333-341): panics when the
window was closed ("window was closed when calling get_window_dimensions"). -/
def get_window_dimensions (window : Option Dim) : Outcome RenderError Dim :=
  match window with
  | some d => .ok d
  | none => .panicked "window was closed when calling get_window_dimensions"

/-- `Renderer::recreate_swapchain` (renderer.rs lines 228-241): query the
window size; `recreate_with_dimension` with that size (on success the new
images carry the requested dimensions); rebuild the pipeline from the new
images (its baked viewport is `images[0].dimensions()`); rebuild the
framebuffers (whose depth-attachment creation PANICS on failure, via the
`expect` in `create_framebuffers`, renderer.rs line 276); only then clear
the `recreate_swapchain` flag.  Field updates happen exactly where the
source assigns them, so a failure mid-way leaves a partial update. -/
def RendererState.recreateSwapchainM (r : RendererState) (env : FrameEnv) :
    RendererState × Outcome RenderError Unit :=
  match get_window_dimensions env.window with
  | .panicked m => (r, .panicked m)
  | .err e => (r, .err e)
  | .ok windowDims =>
    match env.swapchainRecreate with
    | .error c => (r, .err (.SwapchainCreationError c))
    | .ok _ =>
      let r1 : RendererState :=
        { r with swapchainDims := windowDims, swapchainGen := r.swapchainGen + 1 }
      match env.pipelineCreate with
      | .error c => (r1, .err (.PipelineCreationError c))
      | .ok _ =>
        let r2 : RendererState :=
          { r1 with pipelineViewport := r1.swapchainDims,
                    pipelineGen := r1.pipelineGen + 1 }
        if env.depthBufferOk then
          match env.framebufferBuild with
          | .error c => (r2, .err (.FramebufferCreationError c))
          | .ok _ =>
            ({ r2 with framebufferGen := r2.framebufferGen + 1,
                       recreate_swapchain := false }, .ok ())
        else
          (r2, .panicked "could not create depth buffer")

/-- The clear values of `begin_render_pass` (renderer.rs lines 179-182):
opaque black and depth 1.0. -/
def clearColor : List ℚ := [0, 0, 0, 1]

def clearDepth : ℚ := 1

/-- The per-object body of the loop in `add_scene_commands` (renderer.rs
lines 191-221): overwrite the model slot, push the uniforms, fetch the two
subbuffers, start the descriptor set with the two `add_buffer` calls, build
the push constants; when the object has a mesh, append the unconditional
`add_sampled_image` binding and record the indexed draw. -/
def recordObject (acc : TransUniform × UniformManager × List Command)
    (object : Object) : TransUniform × UniformManager × List Command :=
  let tdata := { acc.1 with model := object.model_matrix }
  let um := acc.2.1.update_transformation_data tdata
  let transformation_data_buffer_subbuffer := um.get_transformation_subbuffer_data
  let light_data_buffer_subbuffer := um.get_light_subbuffer_data
  let descriptor_set : List DescriptorBinding :=
    [.buffer transformation_data_buffer_subbuffer,
     .buffer light_data_buffer_subbuffer]
  let push_constants : PushConstants :=
    ⟨boolToU32 object.light_source, boolToU32 object.uniform_scale⟩
  match object.mesh with
  | none => (tdata, um, acc.2.2)
  | some mesh =>
    let mesh_texture := mesh.textureHandle
    let descriptor_set := descriptor_set ++
      [.sampledImage mesh_texture.image_buffer mesh_texture.sampler]
    (tdata, um,
     acc.2.2 ++ [Command.drawIndexed descriptor_set push_constants
        mesh.vertex_buffer mesh.index_buffer])

/-- `Renderer::add_scene_commands` (renderer.rs lines 176-225): begin the
render pass on `framebuffers[image_num]` with the fixed clear values; when a
scene is active, query the window size (panics when closed), build the
camera block, push the light data, and run the object loop; objects without
a mesh contribute no draw.  vulkano recording/validation errors are not
modelled — recording into the embedded command list is total. -/
def RendererState.addSceneCommands (r : RendererState) (env : FrameEnv)
    (command_buffer : List Command) (image_num : Nat) (am : AssetManager) :
    Outcome RenderError (UniformManager × List Command) :=
  let cb := command_buffer ++
    [Command.beginRenderPass r.framebufferGen image_num clearColor clearDepth]
  match am.active_scene with
  | none => .ok (r.uniform_manager, cb)
  | some scene =>
    match get_window_dimensions env.window with
    | .panicked m => .panicked m
    | .err e => .err e
    | .ok window_dimensions =>
      let transformation_uniform_data :=
        scene.camera.as_uniform_data window_dimensions.width window_dimensions.height
      let um := r.uniform_manager.update_light_data scene.light_data
      let res := scene.objects.foldl recordObject (transformation_uniform_data, um, cb)
      .ok (res.2.1, res.2.2)

/-- The pre-acquire phase of `render_scene` (renderer.rs lines 126-128):
run `recreate_swapchain` when the flag is set. -/
def RendererState.preAcquire (r : RendererState) (env : FrameEnv) :
    RendererState × Outcome RenderError Unit :=
  if r.recreate_swapchain then r.recreateSwapchainM env else (r, .ok ())

/-- The acquire-and-record phase of `render_scene` (renderer.rs lines
130-141): acquire the next image — `OutOfDate` sets the recreate flag and
returns a recoverable error, any other acquire error is returned as-is —
then record the scene commands. -/
def RendererState.acquireAndRecord (r : RendererState) (env : FrameEnv)
    (command_buffer : List Command) (am : AssetManager) :
    RendererState × Outcome RenderError (Nat × List Command) :=
  match env.acquire with
  | .error AcquireError.OutOfDate =>
    ({ r with recreate_swapchain := true },
     .err (.AcquireError AcquireError.OutOfDate))
  | .error e => (r, .err (.AcquireError e))
  | .ok image_num =>
    match r.addSceneCommands env command_buffer image_num am with
    | .panicked m => (r, .panicked m)
    | .err e => (r, .err e)
    | .ok (um, cb) => ({ r with uniform_manager := um }, .ok (image_num, cb))

/-- `Renderer::render_scene` (renderer.rs lines 121-142):
`previous_frame.cleanup_finished()` (frees completed GPU resources — no
observable state in this model), the recreate-if-flagged phase, then
acquire-and-record. -/
def RendererState.render_scene (r : RendererState) (env : FrameEnv)
    (command_buffer : List Command) (am : AssetManager) :
    RendererState × Outcome RenderError (Nat × List Command) :=
  match r.preAcquire env with
  | (r1, .panicked m) => (r1, .panicked m)
  | (r1, .err e) => (r1, .err e)
  | (r1, .ok _) => r1.acquireAndRecord env command_buffer am

/-- Environment of one `execute_command_buffer` call: the outcome of
`end_render_pass()?.build()?`, of `then_execute`, and of
`then_signal_fence_and_flush`. -/
structure ExecEnv where
  build : Except Nat Unit
  execute : Except Nat Unit
  flush : Except FlushError Unit

/-- `Renderer::execute_command_buffer` (renderer.rs lines 145-168): finish
and build the command buffer (errors here return BEFORE `previous_frame` is
touched); then `previous_frame.take()` (or a fresh `sync::now` future),
join the acquire future, `then_execute` (an error here returns with the
slot already emptied), present, fence and flush.  Flush `Ok` stores the new
chained future; `FlushError::OutOfDate` sets the recreate flag; any flush
error leaves the slot empty. -/
def RendererState.execute_command_buffer (r : RendererState) (env : ExecEnv)
    (image_num : Nat) (acquire_future : Nat) (command_buffer : List Command) :
    RendererState × Except RenderError Unit :=
  match env.build with
  | .error c => (r, .error (.CommandBufferError c))
  | .ok _ =>
    let command_buffer := command_buffer ++ [Command.endRenderPass]
    let prev := r.previous_frame.getD GpuFuture.now
    let r1 : RendererState := { r with previous_frame := none }
    match env.execute with
    | .error c => (r1, .error (.ExecutionError c))
    | .ok _ =>
      match env.flush with
      | .ok _ =>
        let future := GpuFuture.frame prev acquire_future image_num command_buffer
        ({ r1 with previous_frame := some future }, .ok ())
      | .error FlushError.OutOfDate =>
        ({ r1 with recreate_swapchain := true },
         .error (.FlushError FlushError.OutOfDate))
      | .error e => (r1, .error (.FlushError e))

/-! ## Renderer construction (`Renderer::new`) -/

/-- `UniformManager::new(device)`: fresh uniform pools; the initial block
contents are unobservable, modelled as zeros. -/
def UniformManager.new : UniformManager := ⟨⟨0, 0, 0, 0⟩, 0⟩

/-- `vulkano::swapchain::PresentMode` as the renderer distinguishes it. -/
inductive PresentMode
  | Mailbox
  | Fifo
  deriving DecidableEq

/-- The surface capabilities `create_swapchain` consults. -/
structure SurfaceCapabilities where
  current_extent : Option Dim
  min_image_count : Nat
  mailbox_supported : Bool
  deriving DecidableEq

/-- Environment of one `Renderer::new` call: the outcome of each fallible
external call, in source order, plus the enumerated devices, the surface
capabilities and the window size. -/
structure NewEnv where
  instanceCreate : Except Nat Unit
  devices : List PhysicalDevice
  surfaceCreate : Except Nat Unit
  deviceCreate : Except Nat Unit
  capabilities : Except Nat SurfaceCapabilities
  window : Option Dim
  swapchainCreate : Except Nat Unit
  renderPassCreate : Except Nat Unit
  pipelineCreate : Except Nat Unit
  depthBufferOk : Bool
  framebufferBuild : Except Nat Unit

/-- `create_swapchain` (renderer.rs lines 373-414): query the surface
capabilities (`?` on `CapabilitiesError`); take the extent from
`current_extent` when defined, else from the window (panicking when the
window is closed, via `get_window_dimensions`); prefer Mailbox over Fifo;
`Swapchain::new` with `min_image_count` (`?` on `SwapchainCreationError`).
On success the images carry the chosen extent. -/
def create_swapchain (env : NewEnv) :
    Outcome RendererCreationError (Dim × PresentMode) :=
  match env.capabilities with
  | .error c => .err (.CapabilitiesError c)
  | .ok capabilities =>
    let extent : Outcome RendererCreationError Dim :=
      match capabilities.current_extent with
      | some dimensions => .ok dimensions
      | none =>
        match get_window_dimensions env.window with
        | .ok d => .ok d
        | .err _ => .err (.CapabilitiesError 0)
        | .panicked m => .panicked m
    match extent with
    | .err e => .err e
    | .panicked m => .panicked m
    | .ok initial_dimensions =>
      let present_mode :=
        if capabilities.mailbox_supported then PresentMode.Mailbox else PresentMode.Fifo
      match env.swapchainCreate with
      | .error c => .err (.SwapchainCreationError c)
      | .ok _ => .ok (initial_dimensions, present_mode)

/-- `Renderer::new` (renderer.rs lines 71-113), in source order: instance
creation, device ranking, surface creation, queue lookup (no error path),
logical-device creation, swapchain creation, render-pass creation, pipeline
creation (viewport baked from `images[0].dimensions()`), framebuffer
creation — whose depth attachment PANICS on failure (the `expect` in
`create_framebuffers`) while a framebuffer-build failure is a `?` error.
Every error is returned as a tagged `RendererCreationError`. -/
def Renderer.new (env : NewEnv) : Outcome RendererCreationError RendererState :=
  match env.instanceCreate with
  | .error c => .err (.InstanceCreationError c)
  | .ok _ =>
    match rank_devices env.devices with
    | .error e => .err e
    | .ok _physical_device =>
      match env.surfaceCreate with
      | .error c => .err (.SurfaceCreationError c)
      | .ok _ =>
        match env.deviceCreate with
        | .error c => .err (.DeviceCreationError c)
        | .ok _ =>
          match create_swapchain env with
          | .panicked m => .panicked m
          | .err e => .err e
          | .ok (dims, _present_mode) =>
            match env.renderPassCreate with
            | .error c => .err (.RenderPassCreationError c)
            | .ok _ =>
              match env.pipelineCreate with
              | .error c => .err (.PipelineCreationError c)
              | .ok _ =>
                if env.depthBufferOk then
                  match env.framebufferBuild with
                  | .error c => .err (.FramebufferCreationError c)
                  | .ok _ =>
                    .ok { swapchainDims := dims, swapchainGen := 0,
                          pipelineViewport := dims, pipelineGen := 0,
                          framebufferGen := 0, recreate_swapchain := false,
                          previous_frame := none,
                          uniform_manager := UniformManager.new }
                else
                  .panicked "could not create depth buffer"

/-! ## Characterisation of the recorded commands -/

/-- The draw call `add_scene_commands` records for one object, when the
object has a mesh: descriptor set of the two uniform buffers followed by
the (unconditional) sampled-image binding, push constants from the two
object flags, and the mesh buffers. -/
def drawFor (camId w h light : Nat) (o : Object) : Option Command :=
  o.mesh.map fun m =>
    Command.drawIndexed
      [.buffer (.transformation ⟨camId, w, h, o.model_matrix⟩),
       .buffer (.light light),
       .sampledImage m.textureHandle.image_buffer m.textureHandle.sampler]
      ⟨boolToU32 o.light_source, boolToU32 o.uniform_scale⟩
      m.vertex_buffer m.index_buffer

/-- All draw calls recorded for an object list, in scene iteration order;
objects without a mesh contribute nothing. -/
def drawsFor (camId w h light : Nat) (objects : List Object) : List Command :=
  objects.filterMap (drawFor camId w h light)

/-- The object loop of `add_scene_commands` appends exactly the draws of
`drawsFor` and preserves the camera block and the light data. -/
theorem foldl_recordObject (objects : List Object) (camId w h model0 light : Nat)
    (um : UniformManager) (cb : List Command)
    (hum : um.light_data = light) :
    ∃ model um',
      objects.foldl recordObject (⟨camId, w, h, model0⟩, um, cb) =
        (⟨camId, w, h, model⟩, um', cb ++ drawsFor camId w h light objects) ∧
      um'.light_data = light := by
  induction objects generalizing model0 um cb with
  | nil => exact ⟨model0, um, by simp [drawsFor], hum⟩
  | cons o os ih =>
    rw [List.foldl_cons]
    rcases hm : o.mesh with _ | m
    · have hrec : recordObject (⟨camId, w, h, model0⟩, um, cb) o =
          (⟨camId, w, h, o.model_matrix⟩,
           ⟨⟨camId, w, h, o.model_matrix⟩, um.light_data⟩, cb) := by
        simp [recordObject, UniformManager.update_transformation_data, hm]
      rw [hrec]
      obtain ⟨model, um', heq, hl⟩ :=
        ih o.model_matrix ⟨⟨camId, w, h, o.model_matrix⟩, um.light_data⟩ cb (by simpa using hum)
      refine ⟨model, um', ?_, hl⟩
      rw [heq]
      have : drawsFor camId w h light (o :: os) = drawsFor camId w h light os := by
        simp [drawsFor, drawFor, hm]
      rw [this]
    · have hrec : recordObject (⟨camId, w, h, model0⟩, um, cb) o =
          (⟨camId, w, h, o.model_matrix⟩,
           ⟨⟨camId, w, h, o.model_matrix⟩, um.light_data⟩,
           cb ++ [Command.drawIndexed
             [.buffer (.transformation ⟨camId, w, h, o.model_matrix⟩),
              .buffer (.light um.light_data),
              .sampledImage m.textureHandle.image_buffer m.textureHandle.sampler]
             ⟨boolToU32 o.light_source, boolToU32 o.uniform_scale⟩
             m.vertex_buffer m.index_buffer]) := by
        simp [recordObject, UniformManager.update_transformation_data,
              UniformManager.get_transformation_subbuffer_data,
              UniformManager.get_light_subbuffer_data, hm]
      rw [hrec]
      obtain ⟨model, um', heq, hl⟩ :=
        ih o.model_matrix ⟨⟨camId, w, h, o.model_matrix⟩, um.light_data⟩
          (cb ++ [Command.drawIndexed
             [.buffer (.transformation ⟨camId, w, h, o.model_matrix⟩),
              .buffer (.light um.light_data),
              .sampledImage m.textureHandle.image_buffer m.textureHandle.sampler]
             ⟨boolToU32 o.light_source, boolToU32 o.uniform_scale⟩
             m.vertex_buffer m.index_buffer])
          (by simpa using hum)
      refine ⟨model, um', ?_, hl⟩
      rw [heq]
      have hcons : drawsFor camId w h light (o :: os) =
          Command.drawIndexed
            [.buffer (.transformation ⟨camId, w, h, o.model_matrix⟩),
             .buffer (.light light),
             .sampledImage m.textureHandle.image_buffer m.textureHandle.sampler]
            ⟨boolToU32 o.light_source, boolToU32 o.uniform_scale⟩
            m.vertex_buffer m.index_buffer :: drawsFor camId w h light os := by
        simp [drawsFor, drawFor, hm]
      rw [hcons, hum]
      simp

/-- `add_scene_commands` with an active scene: begin-render-pass on the
current framebuffer, then exactly the draws of `drawsFor`. -/
theorem addSceneCommands_some (r : RendererState) (env : FrameEnv)
    (command_buffer : List Command) (image_num : Nat) (am : AssetManager)
    (scene : Scene) (w : Dim)
    (hscene : am.active_scene = some scene)
    (hwin : env.window = some w) :
    ∃ um',
      r.addSceneCommands env command_buffer image_num am =
        .ok (um',
          (command_buffer ++
            [Command.beginRenderPass r.framebufferGen image_num clearColor clearDepth]) ++
          drawsFor scene.camera.id w.width w.height scene.light_data scene.objects) ∧
      um'.light_data = scene.light_data := by
  obtain ⟨model, um', heq, hl⟩ :=
    foldl_recordObject scene.objects scene.camera.id w.width w.height 0 scene.light_data
      (r.uniform_manager.update_light_data scene.light_data)
      (command_buffer ++
        [Command.beginRenderPass r.framebufferGen image_num clearColor clearDepth])
      (by simp [UniformManager.update_light_data])
  refine ⟨um', ?_, hl⟩
  simp only [RendererState.addSceneCommands, hscene, hwin, get_window_dimensions,
    Camera.as_uniform_data]
  rw [heq]

/-- `add_scene_commands` with no active scene: only the begin-render-pass
with the fixed clear values is recorded. -/
theorem addSceneCommands_none (r : RendererState) (env : FrameEnv)
    (command_buffer : List Command) (image_num : Nat) (am : AssetManager)
    (hscene : am.active_scene = none) :
    r.addSceneCommands env command_buffer image_num am =
      .ok (r.uniform_manager,
        command_buffer ++
          [Command.beginRenderPass r.framebufferGen image_num clearColor clearDepth]) := by
  simp [RendererState.addSceneCommands, hscene]

/-- The state after a successful submission: the in-flight slot holds the
newly chained future (previous frame — or a fresh `now` — joined with the
acquire future, executing the finished command buffer, presenting
`image_num`). -/
def RendererState.retired (r : RendererState) (acquire_future image_num : Nat)
    (commands : List Command) : RendererState :=
  let future := GpuFuture.frame (r.previous_frame.getD .now) acquire_future image_num commands
  { r with previous_frame := some future }

/-- With the recreate flag clear, `render_scene` is the acquire-and-record
phase alone. -/
theorem render_scene_no_recreate (r : RendererState) (env : FrameEnv)
    (command_buffer : List Command) (am : AssetManager)
    (hflag : r.recreate_swapchain = false) :
    r.render_scene env command_buffer am =
      r.acquireAndRecord env command_buffer am := by
  simp [RendererState.render_scene, RendererState.preAcquire, hflag]

/-- C7: with no active scene (and a fresh command buffer), `render_scene`
succeeds and records exactly a begin-render-pass with clear values colour
[0,0,0,1] and depth 1, no draw call; `execute_command_buffer` on that
buffer succeeds, appending only the end-render-pass, and retires the frame
into the in-flight slot. -/
theorem C7_empty_scene (r : RendererState) (env : FrameEnv) (eenv : ExecEnv)
    (am : AssetManager) (i af : Nat)
    (hscene : am.active_scene = none)
    (hflag : r.recreate_swapchain = false)
    (hacq : env.acquire = .ok i)
    (hbuild : eenv.build = .ok ())
    (hexec : eenv.execute = .ok ())
    (hflush : eenv.flush = .ok ()) :
    ∃ cb,
      r.render_scene env [] am = (r, .ok (i, cb)) ∧
      cb = [Command.beginRenderPass r.framebufferGen i [0, 0, 0, 1] 1] ∧
      (∀ c ∈ cb, c.isDraw = false) ∧
      r.execute_command_buffer eenv i af cb =
        (r.retired af i (cb ++ [Command.endRenderPass]), .ok ()) ∧
      (∀ c ∈ cb ++ [Command.endRenderPass], c.isDraw = false) := by
  refine ⟨[Command.beginRenderPass r.framebufferGen i [0, 0, 0, 1] 1], ?_, rfl, ?_, ?_, ?_⟩
  · rw [render_scene_no_recreate r env [] am hflag]
    simp [RendererState.acquireAndRecord, hacq,
      addSceneCommands_none r env [] i am hscene, clearColor, clearDepth]
  · intro c hc
    simp only [List.mem_singleton] at hc
    subst hc; rfl
  · simp [RendererState.execute_command_buffer, RendererState.retired,
      hbuild, hexec, hflush]
  · intro c hc
    rcases List.mem_append.mp hc with h | h <;>
      simp only [List.mem_singleton] at h <;> subst h <;> rfl

/-- C7 witness: the empty-scene round trip on a concrete renderer state. -/
theorem C7_empty_scene_witness :
    ∃ cb,
      RendererState.render_scene
        ⟨⟨600, 400⟩, 0, ⟨600, 400⟩, 0, 0, false, none, UniformManager.new⟩
        ⟨some ⟨600, 400⟩, .ok (), .ok (), true, .ok (), .ok 0⟩ [] ⟨none⟩ =
        (⟨⟨600, 400⟩, 0, ⟨600, 400⟩, 0, 0, false, none, UniformManager.new⟩, .ok (0, cb)) ∧
      cb = [Command.beginRenderPass 0 0 [0, 0, 0, 1] 1] ∧
      (∀ c ∈ cb, c.isDraw = false) ∧
      RendererState.execute_command_buffer
        ⟨⟨600, 400⟩, 0, ⟨600, 400⟩, 0, 0, false, none, UniformManager.new⟩
        ⟨.ok (), .ok (), .ok ()⟩ 0 0 cb =
        (RendererState.retired
          ⟨⟨600, 400⟩, 0, ⟨600, 400⟩, 0, 0, false, none, UniformManager.new⟩
          0 0 (cb ++ [Command.endRenderPass]), .ok ()) ∧
      (∀ c ∈ cb ++ [Command.endRenderPass], c.isDraw = false) :=
  C7_empty_scene
    ⟨⟨600, 400⟩, 0, ⟨600, 400⟩, 0, 0, false, none, UniformManager.new⟩
    ⟨some ⟨600, 400⟩, .ok (), .ok (), true, .ok (), .ok 0⟩
    ⟨.ok (), .ok (), .ok ()⟩ ⟨none⟩ 0 0 rfl rfl rfl rfl rfl rfl

/-- Whether a descriptor binding is a sampled-image binding. -/
def DescriptorBinding.isSampledImage : DescriptorBinding → Bool
  | .sampledImage _ _ => true
  | .buffer _ => false

/-- A concrete renderer state used by the concrete-input theorems below. -/
def rC2 : RendererState :=
  ⟨⟨600, 400⟩, 0, ⟨600, 400⟩, 0, 0, false, none, UniformManager.new⟩

/-- A concrete frame environment in which every external call succeeds and
image 0 is acquired. -/
def envC2 : FrameEnv := ⟨some ⟨600, 400⟩, .ok (), .ok (), true, .ok (), .ok 0⟩

/-- A concrete mesh WITHOUT a texture (`create_mesh` + `add_mesh`, no
`set_texture`, as in the `render_simple_cube_without_texture` test). -/
def meshC2 : Mesh := ⟨none, 11, 12⟩

/-- A scene holding exactly one object whose mesh has no texture. -/
def amC2 : AssetManager := ⟨some ⟨⟨1⟩, 5, [⟨7, some meshC2, false, true⟩]⟩⟩

/-- C2 counterexample: for the single-object scene whose mesh has NO
texture, `render_scene` records one indexed draw whose descriptor set has
THREE bindings — the two uniform buffers AND a sampled-image binding (the
default texture): `add_scene_commands` calls `add_sampled_image`
unconditionally for every mesh, so no two-binding descriptor set exists. -/
theorem C2_counterexample :
    meshC2.texture = none ∧
    (rC2.render_scene envC2 [] amC2).2 =
      .ok (0, [Command.beginRenderPass 0 0 [0, 0, 0, 1] 1,
               Command.drawIndexed
                 [.buffer (.transformation ⟨1, 600, 400, 7⟩),
                  .buffer (.light 5),
                  .sampledImage 0 0]
                 ⟨0, 1⟩ 11 12]) ∧
    DescriptorBinding.sampledImage 0 0 ∈
      [DescriptorBinding.buffer (.transformation ⟨1, 600, 400, 7⟩),
       DescriptorBinding.buffer (.light 5),
       DescriptorBinding.sampledImage 0 0] ∧
    ([DescriptorBinding.buffer (.transformation ⟨1, 600, 400, 7⟩),
      DescriptorBinding.buffer (.light 5),
      DescriptorBinding.sampledImage 0 0].length ≠ 2) := by
  refine ⟨rfl, rfl, by decide, by decide⟩

/-- C2 amended: a scene with exactly one object holding a mesh (textured or
not) produces exactly one indexed draw call, whose descriptor set has the
two uniform buffers FOLLOWED BY a sampled-image binding — the mesh texture
accessor result, the default texture when none was set. -/
theorem C2_single_mesh_object (r : RendererState) (env : FrameEnv)
    (am : AssetManager) (scene : Scene) (o : Object) (m : Mesh) (i : Nat) (w : Dim)
    (hscene : am.active_scene = some scene)
    (hobjs : scene.objects = [o])
    (hmesh : o.mesh = some m)
    (hflag : r.recreate_swapchain = false)
    (hwin : env.window = some w)
    (hacq : env.acquire = .ok i) :
    ∃ um, r.render_scene env [] am =
      ({ r with uniform_manager := um },
       .ok (i, [Command.beginRenderPass r.framebufferGen i clearColor clearDepth,
                Command.drawIndexed
                  [.buffer (.transformation ⟨scene.camera.id, w.width, w.height, o.model_matrix⟩),
                   .buffer (.light scene.light_data),
                   .sampledImage m.textureHandle.image_buffer m.textureHandle.sampler]
                  ⟨boolToU32 o.light_source, boolToU32 o.uniform_scale⟩
                  m.vertex_buffer m.index_buffer])) := by
  obtain ⟨um, hadd, _⟩ := addSceneCommands_some r env [] i am scene w hscene hwin
  refine ⟨um, ?_⟩
  have hdraws : drawsFor scene.camera.id w.width w.height scene.light_data scene.objects =
      [Command.drawIndexed
        [.buffer (.transformation ⟨scene.camera.id, w.width, w.height, o.model_matrix⟩),
         .buffer (.light scene.light_data),
         .sampledImage m.textureHandle.image_buffer m.textureHandle.sampler]
        ⟨boolToU32 o.light_source, boolToU32 o.uniform_scale⟩
        m.vertex_buffer m.index_buffer] := by
    simp [hobjs, drawsFor, drawFor, hmesh]
  rw [render_scene_no_recreate r env [] am hflag]
  rw [hdraws] at hadd
  simp [RendererState.acquireAndRecord, hacq, hadd]

/-- C2 amended witness: the amended theorem at the concrete texture-less
single-object scene. -/
theorem C2_single_mesh_object_witness :
    ∃ um, rC2.render_scene envC2 [] amC2 =
      ({ rC2 with uniform_manager := um },
       .ok (0, [Command.beginRenderPass rC2.framebufferGen 0 clearColor clearDepth,
                Command.drawIndexed
                  [.buffer (.transformation ⟨1, 600, 400, 7⟩),
                   .buffer (.light 5),
                   .sampledImage meshC2.textureHandle.image_buffer
                     meshC2.textureHandle.sampler]
                  ⟨boolToU32 false, boolToU32 true⟩
                  meshC2.vertex_buffer meshC2.index_buffer])) :=
  C2_single_mesh_object rC2 envC2 amC2 ⟨⟨1⟩, 5, [⟨7, some meshC2, false, true⟩]⟩
    ⟨7, some meshC2, false, true⟩ meshC2 0 ⟨600, 400⟩ rfl rfl rfl rfl rfl rfl

/-- C8: every object whose mesh HAS a texture yields a recorded draw whose
descriptor set is exactly [transformation buffer, light buffer,
sampled image of that texture], in that order. -/
theorem C8_textured_mesh (r : RendererState) (env : FrameEnv)
    (am : AssetManager) (scene : Scene) (o : Object) (m : Mesh) (t : Texture)
    (i : Nat) (w : Dim)
    (hscene : am.active_scene = some scene)
    (hwin : env.window = some w)
    (hflag : r.recreate_swapchain = false)
    (hacq : env.acquire = .ok i)
    (hobj : o ∈ scene.objects)
    (hmesh : o.mesh = some m)
    (htex : m.texture = some t) :
    ∃ r' cb, r.render_scene env [] am = (r', .ok (i, cb)) ∧
      Command.drawIndexed
        [.buffer (.transformation ⟨scene.camera.id, w.width, w.height, o.model_matrix⟩),
         .buffer (.light scene.light_data),
         .sampledImage t.image_buffer t.sampler]
        ⟨boolToU32 o.light_source, boolToU32 o.uniform_scale⟩
        m.vertex_buffer m.index_buffer ∈ cb := by
  obtain ⟨um, hadd, _⟩ := addSceneCommands_some r env [] i am scene w hscene hwin
  have hhandle : m.textureHandle = t := by
    simp [Mesh.textureHandle, htex]
  have hmemdraw :
      Command.drawIndexed
        [.buffer (.transformation ⟨scene.camera.id, w.width, w.height, o.model_matrix⟩),
         .buffer (.light scene.light_data),
         .sampledImage t.image_buffer t.sampler]
        ⟨boolToU32 o.light_source, boolToU32 o.uniform_scale⟩
        m.vertex_buffer m.index_buffer ∈
      drawsFor scene.camera.id w.width w.height scene.light_data scene.objects := by
    refine List.mem_filterMap.mpr ⟨o, hobj, ?_⟩
    simp [drawFor, hmesh, hhandle]
  refine ⟨{ r with uniform_manager := um },
    ([] ++ [Command.beginRenderPass r.framebufferGen i clearColor clearDepth]) ++
      drawsFor scene.camera.id w.width w.height scene.light_data scene.objects, ?_, ?_⟩
  · rw [render_scene_no_recreate r env [] am hflag]
    simp [RendererState.acquireAndRecord, hacq, hadd]
  · exact List.mem_append.mpr (Or.inr hmemdraw)

/-- A concrete textured mesh, object and scene
(as in the `render_simple_cube_with_texture` test). -/
def meshC8 : Mesh := ⟨some ⟨21, 22⟩, 11, 12⟩

def amC8 : AssetManager := ⟨some ⟨⟨1⟩, 5, [⟨7, some meshC8, true, false⟩]⟩⟩

/-- C8 witness: the theorem at the concrete textured single-object scene. -/
theorem C8_textured_mesh_witness :
    ∃ r' cb, rC2.render_scene envC2 [] amC8 = (r', .ok (0, cb)) ∧
      Command.drawIndexed
        [.buffer (.transformation ⟨1, 600, 400, 7⟩),
         .buffer (.light 5),
         .sampledImage 21 22]
        ⟨boolToU32 true, boolToU32 false⟩
        meshC8.vertex_buffer meshC8.index_buffer ∈ cb :=
  C8_textured_mesh rC2 envC2 amC8 ⟨⟨1⟩, 5, [⟨7, some meshC8, true, false⟩]⟩
    ⟨7, some meshC8, true, false⟩ meshC8 ⟨21, 22⟩ 0 ⟨600, 400⟩
    rfl rfl rfl rfl (by simp) rfl rfl

/-- The renderer state after a fully successful `recreate_swapchain` with
window dimensions `w`: all three resource generations bumped, the swapchain
dimensions and the baked pipeline viewport both equal to `w`, and the
recreate flag cleared. -/
def RendererState.rebuilt (r : RendererState) (w : Dim) : RendererState :=
  { r with
      swapchainDims := w
      swapchainGen := r.swapchainGen + 1
      pipelineViewport := w
      pipelineGen := r.pipelineGen + 1
      framebufferGen := r.framebufferGen + 1
      recreate_swapchain := false }

/-- C3: with the recreate flag set (as after `force_recreate_swapchain`)
and the rebuild calls succeeding, `render_scene` first rebuilds the
swapchain, the pipeline and the framebuffers (all three generations bump),
bakes the pipeline viewport to the current window dimensions, clears the
flag, and only then proceeds to the acquire-and-record phase. -/
theorem C3_recreate_before_acquire (r : RendererState) (env : FrameEnv)
    (cb : List Command) (am : AssetManager) (w : Dim)
    (hflag : r.recreate_swapchain = true)
    (hwin : env.window = some w)
    (hsw : env.swapchainRecreate = .ok ())
    (hpl : env.pipelineCreate = .ok ())
    (hdp : env.depthBufferOk = true)
    (hfb : env.framebufferBuild = .ok ()) :
    ∃ rmid,
      r.recreateSwapchainM env = (rmid, .ok ()) ∧
      rmid.swapchainGen = r.swapchainGen + 1 ∧
      rmid.pipelineGen = r.pipelineGen + 1 ∧
      rmid.framebufferGen = r.framebufferGen + 1 ∧
      rmid.swapchainDims = w ∧
      rmid.pipelineViewport = w ∧
      rmid.recreate_swapchain = false ∧
      r.render_scene env cb am = rmid.acquireAndRecord env cb am := by
  refine ⟨r.rebuilt w, ?_, rfl, rfl, rfl, rfl, rfl, rfl, ?_⟩
  · simp [RendererState.recreateSwapchainM, RendererState.rebuilt,
      get_window_dimensions, hwin, hsw, hpl, hdp, hfb]
  · simp [RendererState.render_scene, RendererState.preAcquire, hflag,
      RendererState.recreateSwapchainM, RendererState.rebuilt,
      get_window_dimensions, hwin, hsw, hpl, hdp, hfb]

/-- A concrete state with the recreate flag set, and an environment with a
resized window on which every rebuild call succeeds. -/
def rC3 : RendererState :=
  ⟨⟨600, 400⟩, 0, ⟨600, 400⟩, 0, 0, true, none, UniformManager.new⟩

def envC3 : FrameEnv := ⟨some ⟨800, 600⟩, .ok (), .ok (), true, .ok (), .ok 0⟩

/-- C3 witness: the theorem at the concrete resized renderer. -/
theorem C3_recreate_before_acquire_witness :
    ∃ rmid,
      rC3.recreateSwapchainM envC3 = (rmid, .ok ()) ∧
      rmid.swapchainGen = rC3.swapchainGen + 1 ∧
      rmid.pipelineGen = rC3.pipelineGen + 1 ∧
      rmid.framebufferGen = rC3.framebufferGen + 1 ∧
      rmid.swapchainDims = ⟨800, 600⟩ ∧
      rmid.pipelineViewport = ⟨800, 600⟩ ∧
      rmid.recreate_swapchain = false ∧
      rC3.render_scene envC3 [] ⟨none⟩ = rmid.acquireAndRecord envC3 [] ⟨none⟩ :=
  C3_recreate_before_acquire rC3 envC3 [] ⟨none⟩ ⟨800, 600⟩ rfl rfl rfl rfl rfl rfl

/-- C4: when acquisition reports `OutOfDate` (and the pre-acquire phase
went through), `render_scene` returns the recoverable
`RenderError::AcquireError(OutOfDate)` — an error value, not a panic — and
the resulting state has the recreate flag set. -/
theorem C4_acquire_out_of_date (r r1 : RendererState) (env : FrameEnv)
    (cb : List Command) (am : AssetManager)
    (hpre : r.preAcquire env = (r1, .ok ()))
    (hacq : env.acquire = .error AcquireError.OutOfDate) :
    r.render_scene env cb am =
      ({ r1 with recreate_swapchain := true },
       .err (RenderError.AcquireError AcquireError.OutOfDate)) ∧
    (r.render_scene env cb am).1.recreate_swapchain = true := by
  have h : r.render_scene env cb am = r1.acquireAndRecord env cb am := by
    simp [RendererState.render_scene, hpre]
  rw [h]
  constructor
  · simp [RendererState.acquireAndRecord, hacq]
  · simp [RendererState.acquireAndRecord, hacq]

/-- C4 witness: a stale acquire on a concrete renderer with the flag clear. -/
theorem C4_acquire_out_of_date_witness :
    rC2.render_scene ⟨some ⟨600, 400⟩, .ok (), .ok (), true, .ok (),
        .error AcquireError.OutOfDate⟩ [] ⟨none⟩ =
      ({ rC2 with recreate_swapchain := true },
       .err (RenderError.AcquireError AcquireError.OutOfDate)) ∧
    (rC2.render_scene ⟨some ⟨600, 400⟩, .ok (), .ok (), true, .ok (),
        .error AcquireError.OutOfDate⟩ [] ⟨none⟩).1.recreate_swapchain = true :=
  C4_acquire_out_of_date rC2 rC2
    ⟨some ⟨600, 400⟩, .ok (), .ok (), true, .ok (), .error AcquireError.OutOfDate⟩
    [] ⟨none⟩ rfl rfl

/-- C5: `execute_command_buffer` — on success the in-flight slot holds the
new future chained onto the previous one; a flush `OutOfDate` sets the
recreate flag and returns the recoverable wrapped flush error; any other
flush error is returned with the in-flight slot left empty. -/
theorem C5_flush_policy (r : RendererState) (env : ExecEnv)
    (image_num acquire_future : Nat) (cb : List Command) :
    ((r.execute_command_buffer env image_num acquire_future cb).2 = .ok () →
      (r.execute_command_buffer env image_num acquire_future cb).1.previous_frame =
        some (GpuFuture.frame (r.previous_frame.getD .now) acquire_future image_num
          (cb ++ [Command.endRenderPass]))) ∧
    (env.build = .ok () → env.execute = .ok () →
      env.flush = .error FlushError.OutOfDate →
      (r.execute_command_buffer env image_num acquire_future cb).1.recreate_swapchain
          = true ∧
      (r.execute_command_buffer env image_num acquire_future cb).2 =
        .error (RenderError.FlushError FlushError.OutOfDate)) ∧
    (∀ c, env.build = .ok () → env.execute = .ok () →
      env.flush = .error (FlushError.otherError c) →
      (r.execute_command_buffer env image_num acquire_future cb).2 =
        .error (RenderError.FlushError (FlushError.otherError c)) ∧
      (r.execute_command_buffer env image_num acquire_future cb).1.previous_frame
          = none) := by
  refine ⟨?_, ?_, ?_⟩
  · intro h
    rcases hb : env.build with c | u
    · simp [RendererState.execute_command_buffer, hb] at h
    · rcases hx : env.execute with c | u2
      · simp [RendererState.execute_command_buffer, hb, hx] at h
      · rcases hf : env.flush with e | u3
        · rcases e with _ | c <;>
            simp [RendererState.execute_command_buffer, hb, hx, hf] at h
        · simp [RendererState.execute_command_buffer, hb, hx, hf]
  · intro hb hx hf
    simp [RendererState.execute_command_buffer, hb, hx, hf]
  · intro c hb hx hf
    simp [RendererState.execute_command_buffer, hb, hx, hf]

/-- C5 witness: the three cases at concrete inputs — a successful flush, an
`OutOfDate` flush and an other-error flush. -/
theorem C5_flush_policy_witness :
    (rC2.execute_command_buffer ⟨.ok (), .ok (), .ok ()⟩ 0 0 []).1.previous_frame =
      some (GpuFuture.frame GpuFuture.now 0 0 [Command.endRenderPass]) ∧
    ((rC2.execute_command_buffer ⟨.ok (), .ok (),
        .error FlushError.OutOfDate⟩ 0 0 []).1.recreate_swapchain = true ∧
      (rC2.execute_command_buffer ⟨.ok (), .ok (),
        .error FlushError.OutOfDate⟩ 0 0 []).2 =
        .error (RenderError.FlushError FlushError.OutOfDate)) ∧
    ((rC2.execute_command_buffer ⟨.ok (), .ok (),
        .error (FlushError.otherError 3)⟩ 0 0 []).2 =
        .error (RenderError.FlushError (FlushError.otherError 3)) ∧
      (rC2.execute_command_buffer ⟨.ok (), .ok (),
        .error (FlushError.otherError 3)⟩ 0 0 []).1.previous_frame = none) :=
  ⟨(C5_flush_policy rC2 ⟨.ok (), .ok (), .ok ()⟩ 0 0 []).1 rfl,
   (C5_flush_policy rC2 ⟨.ok (), .ok (), .error FlushError.OutOfDate⟩ 0 0 []).2.1
     rfl rfl rfl,
   (C5_flush_policy rC2 ⟨.ok (), .ok (), .error (FlushError.otherError 3)⟩ 0 0 []).2.2
     3 rfl rfl rfl⟩

/-- A concrete state with a tracked in-flight previous frame. -/
def rPrev : RendererState :=
  ⟨⟨600, 400⟩, 0, ⟨600, 400⟩, 0, 0, false, some GpuFuture.now, UniformManager.new⟩

/-- C10 counterexample: when `end_render_pass()?.build()?` fails, the error
returns BEFORE `previous_frame.take()` runs, so the in-flight slot still
holds the old future — it is NOT left empty on every error return. -/
theorem C10_counterexample :
    (rPrev.execute_command_buffer ⟨.error 7, .ok (), .ok ()⟩ 0 0 []).2 =
      .error (RenderError.CommandBufferError 7) ∧
    (rPrev.execute_command_buffer ⟨.error 7, .ok (), .ok ()⟩ 0 0 []).1.previous_frame =
      some GpuFuture.now ∧
    some GpuFuture.now ≠ (none : Option GpuFuture) :=
  ⟨rfl, rfl, by decide⟩

/-- C10 amended: for every error return AFTER the command buffer was built
successfully (execution errors and every flush error, `OutOfDate`
included), the in-flight slot is left empty, because the previous future
was taken and is only restored on flush success; a command-buffer build
error instead leaves the slot untouched. -/
theorem C10_post_build_errors (r : RendererState) (env : ExecEnv)
    (i af : Nat) (cb : List Command) (e : RenderError)
    (hbuild : env.build = .ok ())
    (herr : (r.execute_command_buffer env i af cb).2 = .error e) :
    (r.execute_command_buffer env i af cb).1.previous_frame = none := by
  rcases hx : env.execute with c | u
  · simp [RendererState.execute_command_buffer, hbuild, hx]
  · rcases hf : env.flush with fe | u2
    · rcases fe with _ | c <;>
        simp [RendererState.execute_command_buffer, hbuild, hx, hf]
    · simp [RendererState.execute_command_buffer, hbuild, hx, hf] at herr

/-- C10 amended witness: a non-`OutOfDate` flush error empties the slot of
a renderer that had a tracked previous frame. -/
theorem C10_post_build_errors_witness :
    (rPrev.execute_command_buffer
      ⟨.ok (), .ok (), .error (FlushError.otherError 3)⟩ 0 0 []).1.previous_frame
      = none :=
  C10_post_build_errors rPrev ⟨.ok (), .ok (), .error (FlushError.otherError 3)⟩
    0 0 [] (RenderError.FlushError (FlushError.otherError 3)) rfl rfl

/-- A concrete construction environment in which every external call
succeeds except the depth-attachment creation. -/
def envC9 : NewEnv :=
  ⟨.ok (), [⟨0, .DiscreteGpu⟩], .ok (), .ok (),
   .ok ⟨some ⟨600, 400⟩, 2, true⟩, some ⟨600, 400⟩,
   .ok (), .ok (), .ok (), false, .ok ()⟩

/-- C9 counterexample: a depth-attachment creation failure during
framebuffer construction PANICS (the `expect` in `create_framebuffers`,
renderer.rs line 276) instead of being propagated as a tagged
`RendererCreationError`. -/
theorem C9_counterexample :
    envC9.depthBufferOk = false ∧
    Renderer.new envC9 = .panicked "could not create depth buffer" ∧
    ∀ e : RendererCreationError, Renderer.new envC9 ≠ .err e := by
  refine ⟨rfl, rfl, ?_⟩
  intro e h
  rw [show Renderer.new envC9 = .panicked "could not create depth buffer" from rfl] at h
  exact Outcome.noConfusion h

/-- C9 amended: every failure of instance creation, device ranking, surface
creation, logical-device creation, the capabilities query, swapchain
creation, render-pass creation, pipeline creation or the framebuffer build
is propagated as the corresponding tagged `RendererCreationError`; a
depth-attachment creation failure, however, panics instead of returning an
error. -/
theorem C9_creation_error_propagation (env : NewEnv) :
    (∀ c, env.instanceCreate = .error c →
      Renderer.new env = .err (.InstanceCreationError c)) ∧
    (env.instanceCreate = .ok () → env.devices = [] →
      Renderer.new env = .err .NoPhysicalDeviceError) ∧
    (∀ c, env.instanceCreate = .ok () → env.devices ≠ [] →
      env.surfaceCreate = .error c →
      Renderer.new env = .err (.SurfaceCreationError c)) ∧
    (∀ c, env.instanceCreate = .ok () → env.devices ≠ [] →
      env.surfaceCreate = .ok () → env.deviceCreate = .error c →
      Renderer.new env = .err (.DeviceCreationError c)) ∧
    (∀ c, env.instanceCreate = .ok () → env.devices ≠ [] →
      env.surfaceCreate = .ok () → env.deviceCreate = .ok () →
      env.capabilities = .error c →
      Renderer.new env = .err (.CapabilitiesError c)) ∧
    (∀ c caps d, env.instanceCreate = .ok () → env.devices ≠ [] →
      env.surfaceCreate = .ok () → env.deviceCreate = .ok () →
      env.capabilities = .ok caps → caps.current_extent = some d →
      env.swapchainCreate = .error c →
      Renderer.new env = .err (.SwapchainCreationError c)) ∧
    (∀ c caps d, env.instanceCreate = .ok () → env.devices ≠ [] →
      env.surfaceCreate = .ok () → env.deviceCreate = .ok () →
      env.capabilities = .ok caps → caps.current_extent = some d →
      env.swapchainCreate = .ok () → env.renderPassCreate = .error c →
      Renderer.new env = .err (.RenderPassCreationError c)) ∧
    (∀ c caps d, env.instanceCreate = .ok () → env.devices ≠ [] →
      env.surfaceCreate = .ok () → env.deviceCreate = .ok () →
      env.capabilities = .ok caps → caps.current_extent = some d →
      env.swapchainCreate = .ok () → env.renderPassCreate = .ok () →
      env.pipelineCreate = .error c →
      Renderer.new env = .err (.PipelineCreationError c)) ∧
    (∀ caps d, env.instanceCreate = .ok () → env.devices ≠ [] →
      env.surfaceCreate = .ok () → env.deviceCreate = .ok () →
      env.capabilities = .ok caps → caps.current_extent = some d →
      env.swapchainCreate = .ok () → env.renderPassCreate = .ok () →
      env.pipelineCreate = .ok () → env.depthBufferOk = false →
      Renderer.new env = .panicked "could not create depth buffer") ∧
    (∀ c caps d, env.instanceCreate = .ok () → env.devices ≠ [] →
      env.surfaceCreate = .ok () → env.deviceCreate = .ok () →
      env.capabilities = .ok caps → caps.current_extent = some d →
      env.swapchainCreate = .ok () → env.renderPassCreate = .ok () →
      env.pipelineCreate = .ok () → env.depthBufferOk = true →
      env.framebufferBuild = .error c →
      Renderer.new env = .err (.FramebufferCreationError c)) := by
  refine ⟨?_, ?_, ?_, ?_, ?_, ?_, ?_, ?_, ?_, ?_⟩
  · intro c h1
    simp [Renderer.new, h1]
  · intro h1 h2
    simp [Renderer.new, h1, h2, rank_devices, maxByScore]
  · intro c h1 h2 h3
    obtain ⟨dv, hdv, _, _⟩ := rank_devices_max env.devices h2
    simp [Renderer.new, h1, hdv, h3]
  · intro c h1 h2 h3 h4
    obtain ⟨dv, hdv, _, _⟩ := rank_devices_max env.devices h2
    simp [Renderer.new, h1, hdv, h3, h4]
  · intro c h1 h2 h3 h4 h5
    obtain ⟨dv, hdv, _, _⟩ := rank_devices_max env.devices h2
    simp [Renderer.new, create_swapchain, h1, hdv, h3, h4, h5]
  · intro c caps d h1 h2 h3 h4 h5 h6 h7
    obtain ⟨dv, hdv, _, _⟩ := rank_devices_max env.devices h2
    simp [Renderer.new, create_swapchain, h1, hdv, h3, h4, h5, h6, h7]
  · intro c caps d h1 h2 h3 h4 h5 h6 h7 h8
    obtain ⟨dv, hdv, _, _⟩ := rank_devices_max env.devices h2
    simp [Renderer.new, create_swapchain, h1, hdv, h3, h4, h5, h6, h7, h8]
  · intro c caps d h1 h2 h3 h4 h5 h6 h7 h8 h9
    obtain ⟨dv, hdv, _, _⟩ := rank_devices_max env.devices h2
    simp [Renderer.new, create_swapchain, h1, hdv, h3, h4, h5, h6, h7, h8, h9]
  · intro caps d h1 h2 h3 h4 h5 h6 h7 h8 h9 h10
    obtain ⟨dv, hdv, _, _⟩ := rank_devices_max env.devices h2
    simp [Renderer.new, create_swapchain, h1, hdv, h3, h4, h5, h6, h7, h8, h9, h10]
  · intro c caps d h1 h2 h3 h4 h5 h6 h7 h8 h9 h10 h11
    obtain ⟨dv, hdv, _, _⟩ := rank_devices_max env.devices h2
    simp [Renderer.new, create_swapchain, h1, hdv, h3, h4, h5, h6, h7, h8, h9,
      h10, h11]

/-- A concrete construction environment whose instance creation fails. -/
def envC9w : NewEnv :=
  ⟨.error 3, [⟨0, .DiscreteGpu⟩], .ok (), .ok (),
   .ok ⟨some ⟨600, 400⟩, 2, true⟩, some ⟨600, 400⟩,
   .ok (), .ok (), .ok (), true, .ok ()⟩

/-- C9 amended witness: a failed instance creation is returned as the
tagged `InstanceCreationError`. -/
theorem C9_creation_error_propagation_witness :
    Renderer.new envC9w = .err (.InstanceCreationError 3) :=
  (C9_creation_error_propagation envC9w).1 3 rfl
